import Mathlib

/-!
Verification of the chat routes of `app/routes/chat.py` against the design
specification. The Python routing layer is embedded shallowly: Python strings
become `List Char`, JSON/dict payload values become `PyVal`, raised exceptions
become the error side of `Except PyExc`. Controller and store operations that
are not part of the routes file are either taken as parameters of the route
functions (when a claim only concerns how the route invokes them) or modelled
from the specification (when a claim depends on their behavior); each modelled
definition says so in its doc comment.
-/

set_option autoImplicit false

/-- A Python/JSON value as it can occur in a decoded token payload or a
request body dict: an integer, a string, or `None` (also what `dict.get`
returns for an absent key). -/
inductive PyVal where
  | vInt : Int → PyVal
  | vStr : String → PyVal
  | vNone : PyVal
deriving DecidableEq

/-- A Python dict with string keys, as produced by JWT decoding or a JSON
request body. -/
abbrev Payload := List (String × PyVal)

/-- Python `d.get(k)`: the first value stored under `k`, or `None` when the
key is absent. -/
def dictGet (p : Payload) (k : String) : PyVal :=
  match p.find? (fun kv => kv.fst == k) with
  | some kv => kv.snd
  | none => PyVal.vNone

/-- Python truthiness of a payload value: `None`, the empty string and the
integer zero are falsy. -/
def pyFalsy : PyVal → Bool
  | .vNone => true
  | .vStr s => s == ""
  | .vInt n => n == 0

/-- An exception escaping a route handler: `HTTPException(code, detail)`, or
one of the runtime errors the handler code can raise (`NameError` for an
undefined identifier, `TypeError` and `ValueError` from `int(...)`,
`IndexError` from list indexing). -/
inductive PyExc where
  | httpException : Nat → String → PyExc
  | nameError : String → PyExc
  | typeError : PyExc
  | valueError : PyExc
  | indexError : PyExc
deriving DecidableEq

/-- Numeric value of a decimal digit character. -/
def digitVal (c : Char) : Nat := c.toNat - 48

/-- All-digit strings to their numeric value; `none` when empty or a
non-digit occurs. -/
def parseDigits (cs : List Char) : Option Nat :=
  if cs = [] then none
  else if cs.all (fun c => c.isDigit) then
    some (cs.foldl (fun a c => a * 10 + digitVal c) 0)
  else none

/-- Python `int(...)` applied to a string: an optional sign followed by
digits. Surrounding whitespace and underscore digit separators accepted by
CPython are not modelled; no claim exercises them. -/
def pyIntOfStr : List Char → Option Int
  | '-' :: rest => (parseDigits rest).map (fun n => -(n : Int))
  | '+' :: rest => (parseDigits rest).map (fun n => (n : Int))
  | cs => (parseDigits cs).map (fun n => (n : Int))

/-- Python `int(v)` on a payload value: identity on integers, parsing on
strings (`ValueError` on failure), `TypeError` on `None`. -/
def pyInt : PyVal → Except PyExc Int
  | .vInt n => .ok n
  | .vStr s =>
    match pyIntOfStr s.toList with
    | some n => .ok n
    | none => .error .valueError
  | .vNone => .error .typeError

/-- The dict `{"id": int(payload.get("sub")), "role": payload.get("role")}`
built by `get_current_user`. -/
structure CurrentUser where
  id : Int
  role : PyVal
deriving DecidableEq

/-- The `decode_access_token` collaborator (in `app/utils/jwt.py`, not under
the routes file): maps a token to its decoded payload, or a falsy value on
failure. Claims about `get_current_user` quantify over it. -/
abbrev Decoder := List Char → Option Payload

/-- Python `s.startswith(p)` on character lists: `startsWithL p s` is true
when `p` is an initial run of `s` (exact, case sensitive). -/
def startsWithL : List Char → List Char → Bool
  | [], _ => true
  | _ :: _, [] => false
  | p :: ps, c :: cs => (p == c) && startsWithL ps cs

/-- Python `s.split(" ")`: split at every space, keeping empty segments, so
the result is never the empty list. -/
def splitOnSpace : List Char → List (List Char)
  | [] => [[]]
  | c :: cs =>
    if c = ' ' then [] :: splitOnSpace cs
    else
      match splitOnSpace cs with
      | [] => [[c]]
      | h :: t => (c :: h) :: t

/-- The characters of a string before its first space: the head segment of
`splitOnSpace`. -/
def firstSegment : List Char → List Char
  | [] => []
  | c :: cs => if c = ' ' then [] else c :: firstSegment cs

/-- The literal checked by `authorization.startswith("Bearer ")`: capital B
and a single trailing space. -/
def bearerLit : List Char := "Bearer ".toList

/-- Lines 38 to 46 of `app/routes/chat.py` after the token has been
extracted: a falsy decode result (either `None` or the empty dict, both caught
by `if not payload`) yields no user; otherwise the user dict is built, where
`int(payload.get("sub"))` can raise. -/
def userFromPayload : Option Payload → Except PyExc (Option CurrentUser)
  | none => .ok none
  | some p =>
    if p = [] then .ok none
    else
      match pyInt (dictGet p "sub") with
      | .error e => .error e
      | .ok n => .ok (some { id := n, role := dictGet p "role" })

/-- Lines 32 to 46 of `app/routes/chat.py`, `get_current_user`: a missing or
falsy header, or one not starting with the exact text `Bearer `, resolves to
no user without decoding; otherwise the second `split(" ")` segment is decoded
and the user dict is built from the payload. -/
def get_current_user (decode : Decoder) (authorization : Option (List Char)) :
    Except PyExc (Option CurrentUser) :=
  match authorization with
  | none => .ok none
  | some auth =>
    if auth.isEmpty || !startsWithL bearerLit auth then .ok none
    else
      match (splitOnSpace auth)[1]? with
      | none => .error .indexError
      | some token => userFromPayload (decode token)

/-- A chat row. Fields follow the data model of the specification; timestamp
fields play no role in any claim and are omitted. -/
structure Chat where
  id : Int
  customer_id : Int
  assigned_agent_id : Option Int
  mode : String
deriving DecidableEq

/-- A message row. Fields follow the data model of the specification;
timestamp fields play no role in any claim and are omitted. -/
structure Message where
  id : Int
  chat_id : Int
  sender : String
  agent_id : Option Int
  text : String
  read : Bool
deriving DecidableEq

/-- The persistent store state: the chats table and the messages table. -/
structure Db where
  chats : List Chat
  messages : List Message
deriving DecidableEq

/-- Modelled from the spec: the `MessageCreate` request schema
`{chat_id, sender, text, agent_id?}` (the schema module
`app/schemas/chat_schema.py` is not under the routes file). -/
structure MessageCreate where
  chat_id : Int
  sender : String
  text : String
  agent_id : Option Int
deriving DecidableEq

/-- Modelled from the spec: `get_all_chats` of the controller (not under the
routes file). Per the specification, a caller with role `customer` sees only
the chats whose `customer_id` is the caller id; an anonymous caller and the
roles `agent` and `admin` see the unfiltered list. Summary shaping and
ordering are not touched by any claim and are omitted. -/
def get_all_chats (db : Db) (user_id : Option Int) (user_role : Option PyVal) : List Chat :=
  match user_id with
  | some uid =>
    if user_role = some (PyVal.vStr "customer") then
      db.chats.filter (fun c => c.customer_id == uid)
    else db.chats
  | none => db.chats

/-- A fresh store-generated message id. -/
def nextMessageId (db : Db) : Int :=
  (db.messages.map Message.id).foldl max 0 + 1

/-- Modelled from the spec: `send_message(chat_id, sender, agent_id?, text)`
of the controller (not under the routes file): fails with NotFound if the
chat is absent, with InvalidArgument if the text is empty, and otherwise
appends a message built from the payload, with `read = false`. -/
def send_message (data : MessageCreate) (db : Db) : Except PyExc (Message × Db) :=
  match db.chats.find? (fun c => c.id == data.chat_id) with
  | none => .error (.httpException 404 "Chat not found")
  | some _ =>
    if data.text = "" then .error (.httpException 400 "Text must not be empty")
    else
      let m : Message :=
        { id := nextMessageId db, chat_id := data.chat_id, sender := data.sender,
          agent_id := data.agent_id, text := data.text, read := false }
      .ok (m, { db with messages := db.messages ++ [m] })

/-- Lines 49 to 59 of `app/routes/chat.py`, `list_chats`: resolve the caller,
take `user.get("id")` and `user.get("role")` when a user is present and `None`
otherwise, and pass them to `get_all_chats`. -/
def list_chats (decode : Decoder) (db : Db) (authorization : Option (List Char)) :
    Except PyExc (List Chat) :=
  match get_current_user decode authorization with
  | .error e => .error e
  | .ok user =>
    let user_id := user.map (fun u => u.id)
    let user_role := user.map (fun u => u.role)
    .ok (get_all_chats db user_id user_role)

/-- Lines 62 to 65 of `app/routes/chat.py`, `get_chat`: the handler calls
`get_chat_detail(chat_id, db)` directly. The controller function is not under
the routes file and is taken as a parameter. -/
def get_chat {α : Type} (get_chat_detail : Int → Db → α) (chat_id : Int) (db : Db) : α :=
  get_chat_detail chat_id db

/-- The `get_chat` route declares no authorization header dependency, so the
credential of an incoming request never reaches the handler; the request
wrapper makes that explicit. -/
def get_chat_request {α : Type} (get_chat_detail : Int → Db → α)
    (authorization : Option (List Char)) (chat_id : Int) (db : Db) : α :=
  get_chat get_chat_detail chat_id db

/-- Lines 80 to 93 of `app/routes/chat.py`, `send_chat_message`: resolve the
caller; when `data.sender == "agent"` and a user is present, overwrite
`data.agent_id` with `user.get("id")`; then forward to `send_message`. -/
def send_chat_message (decode : Decoder) (data : MessageCreate) (db : Db)
    (authorization : Option (List Char)) : Except PyExc (Message × Db) :=
  match get_current_user decode authorization with
  | .error e => .error e
  | .ok user =>
    let data2 :=
      match user with
      | some u => if data.sender = "agent" then { data with agent_id := some u.id } else data
      | none => data
    send_message data2 db

/-- Lines 96 to 99 of `app/routes/chat.py`, `mark_chat_as_read`: the handler
calls `mark_messages_as_read(chat_id, db)` directly. The controller function
is not under the routes file and is taken as a parameter. -/
def mark_chat_as_read {α : Type} (mark_messages_as_read : Int → Db → α)
    (chat_id : Int) (db : Db) : α :=
  mark_messages_as_read chat_id db

/-- The `mark_chat_as_read` route declares no authorization header
dependency; the request wrapper makes the unused credential explicit. -/
def mark_chat_as_read_request {α : Type} (mark_messages_as_read : Int → Db → α)
    (authorization : Option (List Char)) (chat_id : Int) (db : Db) : α :=
  mark_chat_as_read mark_messages_as_read chat_id db

/-- Lines 102 to 118 of `app/routes/chat.py`, `delete_chat_endpoint`: resolve
the caller; when the user is absent or the role differs from `admin`, the
handler evaluates `status.HTTP_403_FORBIDDEN` — but the routes file never
imports `status`, so this raises `NameError` before `HTTPException` is even
constructed; only an admin reaches `delete_chat`, which is not under the
routes file and is taken as a parameter. -/
def delete_chat_endpoint {α : Type} (delete_chat : Int → Db → Except PyExc α)
    (decode : Decoder) (chat_id : Int) (db : Db) (authorization : Option (List Char)) :
    Except PyExc α :=
  match get_current_user decode authorization with
  | .error e => .error e
  | .ok none => .error (.nameError "status")
  | .ok (some u) =>
    if u.role ≠ PyVal.vStr "admin" then .error (.nameError "status")
    else delete_chat chat_id db

/-- Lines 121 to 135 of `app/routes/chat.py`, `update_message_endpoint`: take
`data.get("text")`; when it is falsy the handler evaluates
`status.HTTP_400_BAD_REQUEST` — but the routes file never imports `status`,
so this raises `NameError`; otherwise the text is forwarded to
`update_message`, which is not under the routes file and is taken as a
parameter. -/
def update_message_endpoint {α : Type} (update_message : Int → PyVal → Db → Except PyExc α)
    (message_id : Int) (data : Payload) (db : Db) : Except PyExc α :=
  let new_text := dictGet data "text"
  if pyFalsy new_text then .error (.nameError "status")
  else update_message message_id new_text db

/-- The `update_message_endpoint` route declares no authorization header
dependency; the request wrapper makes the unused credential explicit. -/
def update_message_request {α : Type} (update_message : Int → PyVal → Db → Except PyExc α)
    (authorization : Option (List Char)) (message_id : Int) (data : Payload) (db : Db) :
    Except PyExc α :=
  update_message_endpoint update_message message_id data db

/-- Lines 138 to 144 of `app/routes/chat.py`, `delete_message_endpoint`: the
handler calls `delete_message(message_id, db)` directly. The controller
function is not under the routes file and is taken as a parameter. -/
def delete_message_endpoint {α : Type} (delete_message : Int → Db → α)
    (message_id : Int) (db : Db) : α :=
  delete_message message_id db

/-- The `delete_message_endpoint` route declares no authorization header
dependency; the request wrapper makes the unused credential explicit. -/
def delete_message_request {α : Type} (delete_message : Int → Db → α)
    (authorization : Option (List Char)) (message_id : Int) (db : Db) : α :=
  delete_message_endpoint delete_message message_id db

/-- A decoder fixture resolving every token to an agent identity with id 7. -/
def decAgent : Decoder := fun _ => some [("sub", PyVal.vInt 7), ("role", PyVal.vStr "agent")]

/-- A decoder fixture resolving every token to a customer identity with
id 10. -/
def decCust : Decoder := fun _ => some [("sub", PyVal.vInt 10), ("role", PyVal.vStr "customer")]

/-- A decoder fixture resolving every token to an admin identity with id 1. -/
def decAdmin : Decoder := fun _ => some [("sub", PyVal.vInt 1), ("role", PyVal.vStr "admin")]

/-- A decoder fixture on which every token fails to decode. -/
def decNone : Decoder := fun _ => none

/-- A well-formed bearer header fixture. -/
def authTok : Option (List Char) := some ("Bearer tok".toList)

/-- A chat fixture owned by customer 10. -/
def chatA : Chat := { id := 1, customer_id := 10, assigned_agent_id := none, mode := "bot" }

/-- A chat fixture owned by customer 20. -/
def chatB : Chat := { id := 2, customer_id := 20, assigned_agent_id := some 7, mode := "agent" }

/-- A store fixture with two chats and no messages. -/
def db0 : Db := { chats := [chatA, chatB], messages := [] }

/-- A message payload fixture: sender `agent` with a client-supplied
`agent_id` of 99. -/
def msgData0 : MessageCreate := { chat_id := 1, sender := "agent", text := "hello", agent_id := some 99 }

/-- Splitting at spaces never yields the empty list of segments. -/
theorem splitOnSpace_ne_nil (cs : List Char) : splitOnSpace cs ≠ [] := by
  induction cs with
  | nil => simp [splitOnSpace]
  | cons c cs ih =>
    by_cases hc : c = ' '
    · simp [splitOnSpace, hc]
    · simp only [splitOnSpace, if_neg hc]
      cases h : splitOnSpace cs with
      | nil => simp
      | cons h t => simp

/-- The head segment of `splitOnSpace` is exactly the run of characters
before the first space. -/
theorem splitOnSpace_head (cs : List Char) :
    ∃ t, splitOnSpace cs = firstSegment cs :: t := by
  induction cs with
  | nil => exact ⟨[], rfl⟩
  | cons c cs ih =>
    obtain ⟨t, ht⟩ := ih
    by_cases hc : c = ' '
    · exact ⟨splitOnSpace cs, by simp [splitOnSpace, firstSegment, hc]⟩
    · refine ⟨t, ?_⟩
      simp only [splitOnSpace, firstSegment, if_neg hc, ht]

/-- Splitting a header that begins with the bearer marker: the marker without
its trailing space is the first segment, and the rest splits on its own. -/
theorem splitOnSpace_bearer (rest : List Char) :
    splitOnSpace (bearerLit ++ rest) = "Bearer".toList :: splitOnSpace rest := by
  rfl

/-- A successful `startswith` check exposes the checked text as a true
initial run. -/
theorem startsWithL_ex (p : List Char) :
    ∀ s : List Char, startsWithL p s = true → ∃ t, s = p ++ t := by
  induction p with
  | nil => intro s _; exact ⟨s, rfl⟩
  | cons c ps ih =>
    intro s h
    cases s with
    | nil => simp [startsWithL] at h
    | cons d ds =>
      simp only [startsWithL, Bool.and_eq_true, beq_iff_eq] at h
      obtain ⟨hcd, hrest⟩ := h
      obtain ⟨t, ht⟩ := ih ds hrest
      exact ⟨t, by rw [hcd, ht]; rfl⟩

/-- On a header of the shape `Bearer <rest>`, `get_current_user` decodes
exactly the characters of `rest` before the next space and builds the user
from the resulting payload. -/
theorem get_current_user_bearer (decode : Decoder) (rest : List Char) :
    get_current_user decode (some (bearerLit ++ rest))
      = userFromPayload (decode (firstSegment rest)) := by
  obtain ⟨t, ht⟩ := splitOnSpace_head rest
  have hcond : ((bearerLit ++ rest).isEmpty || !startsWithL bearerLit (bearerLit ++ rest))
      = false := by rfl
  have hsplit : splitOnSpace (bearerLit ++ rest) = "Bearer".toList :: firstSegment rest :: t := by
    rw [splitOnSpace_bearer, ht]
  simp only [get_current_user, hcond, Bool.false_eq_true, if_false, hsplit,
    List.getElem?_cons_succ, List.getElem?_cons_zero]

/-- A header that fails the `startswith("Bearer ")` check resolves to no user
for every decoder. -/
theorem get_current_user_not_bearer (decode : Decoder) (s : List Char)
    (h : startsWithL bearerLit s = false) :
    get_current_user decode (some s) = Except.ok none := by
  simp [get_current_user, h]

/-- A successful `send_message` stores the agent id given in the payload,
unchanged. -/
theorem send_message_agent_id (data : MessageCreate) (db : Db) (m : Message) (db2 : Db)
    (h : send_message data db = Except.ok (m, db2)) : m.agent_id = data.agent_id := by
  unfold send_message at h
  cases hf : db.chats.find? (fun c => c.id == data.chat_id) with
  | none => rw [hf] at h; exact absurd h (by simp)
  | some c =>
    rw [hf] at h
    by_cases htx : data.text = ""
    · rw [if_pos htx] at h; exact absurd h (by simp)
    · rw [if_neg htx] at h
      simp only [Except.ok.injEq, Prod.mk.injEq] at h
      obtain ⟨hm, -⟩ := h
      subst hm
      rfl

/-- Claim C10: for every Authorization header value that is absent or does
not begin with the exact case-sensitive text `Bearer ` (capital B, single
trailing space), `get_current_user` resolves to no user without the decoder
being consulted; when that marker is present, the token handed to the decoder
is the run of characters between the first and the second space of the header
(later segments are discarded). -/
theorem claim_C10_header_parsing :
    (∀ decode : Decoder, get_current_user decode none = Except.ok none)
    ∧ (∀ (decode : Decoder) (s : List Char), startsWithL bearerLit s = false →
        get_current_user decode (some s) = Except.ok none)
    ∧ (∀ (decode : Decoder) (rest : List Char),
        get_current_user decode (some (bearerLit ++ rest))
          = userFromPayload (decode (firstSegment rest))) :=
  ⟨fun _ => rfl,
   fun decode s h => get_current_user_not_bearer decode s h,
   fun decode rest => get_current_user_bearer decode rest⟩

/-- Witness for C10 at concrete headers: a lowercase `bearer` header is
rejected for any decoder, and a `Bearer tok more` header submits exactly
`tok` for decoding. -/
theorem claim_C10_witness :
    startsWithL bearerLit ("bearer x".toList) = false
    ∧ get_current_user decAgent (some ("bearer x".toList)) = Except.ok none
    ∧ get_current_user decAgent (some (bearerLit ++ "tok more".toList))
        = userFromPayload (decAgent ("tok".toList)) :=
  ⟨rfl,
   claim_C10_header_parsing.2.1 decAgent ("bearer x".toList) rfl,
   claim_C10_header_parsing.2.2 decAgent ("tok more".toList)⟩

/-- Counterexample for C3: a credential that decodes to the non-empty payload
`{"role": "agent"}` (no `sub` claim) makes `get_current_user` raise a
`TypeError` from `int(None)` instead of returning normally. -/
theorem claim_C3_counterexample :
    get_current_user (fun _ => some [("role", PyVal.vStr "agent")])
      (some ("Bearer x".toList)) = Except.error PyExc.typeError := rfl

/-- Claim C3 as amended: `get_current_user` returns normally (an identity or
absence, never an exception) for an absent header, a non-bearer header, and a
credential that fails to decode; and for any decoder whose non-empty payloads
carry a `sub` claim on which `int(...)` succeeds, it returns normally on every
credential. A non-empty payload without such a `sub` claim instead makes
`int(payload.get("sub"))` raise. -/
theorem claim_C3_no_raise_amended :
    ∀ (decode : Decoder) (auth : Option (List Char)),
    (∀ (tk : List Char) (p : Payload), decode tk = some p → p ≠ [] →
        ∃ n : Int, pyInt (dictGet p "sub") = Except.ok n) →
    ∃ r : Option CurrentUser, get_current_user decode auth = Except.ok r := by
  intro decode auth hdec
  match auth with
  | none => exact ⟨none, rfl⟩
  | some s =>
    cases hb : startsWithL bearerLit s with
    | false => exact ⟨none, get_current_user_not_bearer decode s hb⟩
    | true =>
      obtain ⟨t, ht⟩ := startsWithL_ex bearerLit s hb
      subst ht
      rw [get_current_user_bearer]
      cases hd : decode (firstSegment t) with
      | none => exact ⟨none, rfl⟩
      | some p =>
        by_cases hp : p = []
        · subst hp
          exact ⟨none, rfl⟩
        · obtain ⟨n, hn⟩ := hdec _ _ hd hp
          refine ⟨some { id := n, role := dictGet p "role" }, ?_⟩
          simp [userFromPayload, hp, hn]

/-- Witness for the amended C3: the admin decoder carries `sub = 1` on every
token, so resolution returns normally on a concrete bearer credential. -/
theorem claim_C3_witness :
    ∃ r : Option CurrentUser, get_current_user decAdmin authTok = Except.ok r := by
  refine claim_C3_no_raise_amended decAdmin authTok ?_
  intro tk p h hne
  obtain rfl := Option.some.inj h
  exact ⟨1, rfl⟩

/-- Claim C7: the `get_chat` route performs no authorization check; for any
controller behavior, any two requests with any two credentials against the
same store state produce the same result, namely the controller result for
that chat id. -/
theorem claim_C7_get_chat_credential_independent :
    ∀ (α : Type) (gcd : Int → Db → α) (a1 a2 : Option (List Char)) (chat_id : Int) (db : Db),
    get_chat_request gcd a1 chat_id db = get_chat_request gcd a2 chat_id db
    ∧ get_chat_request gcd a1 chat_id db = gcd chat_id db := by
  intro α gcd a1 a2 chat_id db
  exact ⟨rfl, rfl⟩

/-- Claim C1: whenever the payload carries sender `agent` and the credential
resolves to a present identity, the payload forwarded to the store carries the
caller id as `agent_id` — overriding any client-supplied value — and hence any
stored message carries the caller id as its `agent_id`. -/
theorem claim_C1_agent_id_injection :
    ∀ (decode : Decoder) (data : MessageCreate) (db : Db) (auth : Option (List Char))
      (u : CurrentUser),
    data.sender = "agent" →
    get_current_user decode auth = Except.ok (some u) →
    send_chat_message decode data db auth = send_message { data with agent_id := some u.id } db
    ∧ (∀ (m : Message) (db2 : Db),
        send_chat_message decode data db auth = Except.ok (m, db2) → m.agent_id = some u.id) := by
  intro decode data db auth u hs hu
  have h1 : send_chat_message decode data db auth
      = send_message { data with agent_id := some u.id } db := by
    simp [send_chat_message, hu, hs]
  refine ⟨h1, ?_⟩
  intro m db2 hok
  rw [h1] at hok
  exact send_message_agent_id _ _ _ _ hok

/-- Witness for C1: an authenticated agent with id 7 sending a payload whose
client-supplied `agent_id` is 99 forwards `agent_id = 7` to the store. -/
theorem claim_C1_witness :
    msgData0.sender = "agent"
    ∧ get_current_user decAgent authTok = Except.ok (some { id := 7, role := PyVal.vStr "agent" })
    ∧ send_chat_message decAgent msgData0 db0 authTok
        = send_message { msgData0 with agent_id := some 7 } db0 :=
  ⟨rfl, rfl,
   (claim_C1_agent_id_injection decAgent msgData0 db0 authTok
      { id := 7, role := PyVal.vStr "agent" } rfl rfl).1⟩

/-- Claim C9: `send_chat_message` forwards the incoming payload with
`chat_id`, `sender` and `text` unchanged, and `agent_id` is overwritten with
the caller id exactly when the sender field is `agent` and an identity is
present (any role); otherwise — in particular for an anonymous caller with
sender `agent` — the client-supplied `agent_id` is forwarded unmodified. -/
theorem claim_C9_forward_frame :
    ∀ (decode : Decoder) (data : MessageCreate) (db : Db) (auth : Option (List Char))
      (user : Option CurrentUser),
    get_current_user decode auth = Except.ok user →
    ∃ d2 : MessageCreate,
      send_chat_message decode data db auth = send_message d2 db
      ∧ d2.chat_id = data.chat_id ∧ d2.sender = data.sender ∧ d2.text = data.text
      ∧ ((data.sender = "agent" ∧ ∃ u : CurrentUser, user = some u ∧ d2.agent_id = some u.id)
        ∨ ((data.sender ≠ "agent" ∨ user = none) ∧ d2.agent_id = data.agent_id)) := by
  intro decode data db auth user hu
  cases user with
  | none =>
    refine ⟨data, ?_, rfl, rfl, rfl, Or.inr ⟨Or.inr rfl, rfl⟩⟩
    simp [send_chat_message, hu]
  | some u =>
    by_cases hs : data.sender = "agent"
    · refine ⟨{ data with agent_id := some u.id }, ?_, rfl, rfl, rfl,
        Or.inl ⟨hs, u, rfl, rfl⟩⟩
      simp [send_chat_message, hu, hs]
    · refine ⟨data, ?_, rfl, rfl, rfl, Or.inr ⟨Or.inl hs, rfl⟩⟩
      simp [send_chat_message, hu, hs]

/-- Witness for C9: an anonymous caller (failing decoder, no header) sending
with sender `agent` and a client-supplied `agent_id` of 99. -/
theorem claim_C9_witness :
    ∃ d2 : MessageCreate,
      send_chat_message decNone msgData0 db0 none = send_message d2 db0
      ∧ d2.chat_id = msgData0.chat_id ∧ d2.sender = msgData0.sender ∧ d2.text = msgData0.text
      ∧ ((msgData0.sender = "agent"
            ∧ ∃ u : CurrentUser, (none : Option CurrentUser) = some u ∧ d2.agent_id = some u.id)
        ∨ ((msgData0.sender ≠ "agent" ∨ (none : Option CurrentUser) = none)
            ∧ d2.agent_id = msgData0.agent_id)) :=
  claim_C9_forward_frame decNone msgData0 db0 none none rfl

/-- Claim C6: `list_chats` applies role-dependent visibility — an anonymous
caller gets the unfiltered list, a caller with role `agent` or `admin` gets
the unfiltered list, and a caller with role `customer` gets exactly the chats
whose `customer_id` is the caller id. The filtering itself lives in the
`get_all_chats` controller modelled from the spec. -/
theorem claim_C6_role_visibility :
    ∀ (decode : Decoder) (db : Db) (auth : Option (List Char)),
    (get_current_user decode auth = Except.ok none →
        list_chats decode db auth = Except.ok db.chats)
    ∧ (∀ u : CurrentUser, get_current_user decode auth = Except.ok (some u) →
        u.role = PyVal.vStr "agent" ∨ u.role = PyVal.vStr "admin" →
        list_chats decode db auth = Except.ok db.chats)
    ∧ (∀ u : CurrentUser, get_current_user decode auth = Except.ok (some u) →
        u.role = PyVal.vStr "customer" →
        list_chats decode db auth
          = Except.ok (db.chats.filter (fun c => c.customer_id == u.id))) := by
  intro decode db auth
  refine ⟨?_, ?_, ?_⟩
  · intro h
    simp [list_chats, h, get_all_chats]
  · intro u h hrole
    rcases hrole with hr | hr <;> simp [list_chats, h, get_all_chats, hr]
  · intro u h hr
    simp [list_chats, h, get_all_chats, hr]

/-- Witness for C6 at concrete credentials: anonymous and agent callers see
both chats of `db0`, the customer with id 10 sees only their own chat. -/
theorem claim_C6_witness :
    get_current_user decNone none = Except.ok none
    ∧ list_chats decNone db0 none = Except.ok db0.chats
    ∧ get_current_user decAgent authTok
        = Except.ok (some { id := 7, role := PyVal.vStr "agent" })
    ∧ list_chats decAgent db0 authTok = Except.ok db0.chats
    ∧ get_current_user decCust authTok
        = Except.ok (some { id := 10, role := PyVal.vStr "customer" })
    ∧ list_chats decCust db0 authTok
        = Except.ok (db0.chats.filter (fun c => c.customer_id == (10 : Int))) :=
  ⟨rfl, (claim_C6_role_visibility decNone db0 none).1 rfl,
   rfl, (claim_C6_role_visibility decAgent db0 authTok).2.1
      { id := 7, role := PyVal.vStr "agent" } rfl (Or.inl rfl),
   rfl, (claim_C6_role_visibility decCust db0 authTok).2.2
      { id := 10, role := PyVal.vStr "customer" } rfl rfl⟩

/-- Claim C2, evaluated at the failing input: a customer credential and an
anonymous request both make `delete_chat_endpoint` raise
`NameError("status")` — the routes file never imports `fastapi.status`, so
the intended 403 Forbidden response is unreachable — and the store delete is
never invoked (two stores with different behavior give the same outcome, so
the chat and its messages are untouched). -/
theorem claim_C2_forbidden_branch_raises :
    delete_chat_endpoint (fun _ db => Except.ok db) decCust 1 db0 authTok
      = Except.error (PyExc.nameError "status")
    ∧ delete_chat_endpoint
        (fun _ _ => (Except.error (PyExc.httpException 404 "x") : Except PyExc Db))
        decCust 1 db0 authTok
      = Except.error (PyExc.nameError "status")
    ∧ delete_chat_endpoint (fun _ db => Except.ok db) decCust 1 db0 none
      = Except.error (PyExc.nameError "status") :=
  ⟨rfl, rfl, rfl⟩

/-- Claim C4, evaluated at the failing input: a patch with a missing or empty
`text` makes `update_message_endpoint` raise `NameError("status")` — the
routes file never imports `fastapi.status`, so the intended 400
InvalidArgument response is unreachable — and the store update is never
invoked (a store that always succeeds and one that always fails give the same
outcome, so the stored message is untouched). -/
theorem claim_C4_empty_text_raises :
    update_message_endpoint (fun _ _ _ => Except.ok (0 : Nat)) 5 [] db0
      = Except.error (PyExc.nameError "status")
    ∧ update_message_endpoint (fun _ _ _ => Except.ok (0 : Nat)) 5
        [("text", PyVal.vStr "")] db0
      = Except.error (PyExc.nameError "status")
    ∧ update_message_endpoint
        (fun _ _ _ => (Except.error (PyExc.httpException 404 "x") : Except PyExc Nat)) 5 [] db0
      = Except.error (PyExc.nameError "status") :=
  ⟨rfl, rfl, rfl⟩

/-- Counterexample for C5: a delete request with no credential at all takes
the very same branch and produces the very same outcome as one with an
authenticated customer credential, so no Unauthenticated outcome distinct
from the insufficient-role outcome exists. -/
theorem claim_C5_counterexample :
    delete_chat_endpoint (fun _ db => Except.ok db) decCust 1 db0 none
      = delete_chat_endpoint (fun _ db => Except.ok db) decCust 1 db0 authTok
    ∧ delete_chat_endpoint (fun _ db => Except.ok db) decCust 1 db0 none
      = Except.error (PyExc.nameError "status") :=
  ⟨rfl, rfl⟩

/-- Claim C5 as amended: a delete request whose credential is missing or
invalid (no identity resolves) is rejected by the same `not user or role !=
"admin"` branch as an authenticated non-admin — which, because `status` is
never imported, raises `NameError` — rather than by a distinct Unauthenticated
outcome, and the store delete is not invoked for any store behavior. -/
theorem claim_C5_no_distinct_unauthenticated :
    ∀ (α : Type) (store store2 : Int → Db → Except PyExc α) (decode : Decoder)
      (chat_id : Int) (db : Db) (auth : Option (List Char)),
    get_current_user decode auth = Except.ok none →
    delete_chat_endpoint store decode chat_id db auth = Except.error (PyExc.nameError "status")
    ∧ delete_chat_endpoint store decode chat_id db auth
        = delete_chat_endpoint store2 decode chat_id db auth := by
  intro α store store2 decode chat_id db auth h
  constructor
  · simp [delete_chat_endpoint, h]
  · simp [delete_chat_endpoint, h]

/-- Witness for the amended C5: a request whose bearer token fails to decode
resolves to no identity, raises at the forbidden branch, and gives the same
outcome for a succeeding and a failing store. -/
theorem claim_C5_witness :
    get_current_user decNone authTok = Except.ok none
    ∧ delete_chat_endpoint (fun _ db => Except.ok db) decNone 3 db0 authTok
        = Except.error (PyExc.nameError "status")
    ∧ delete_chat_endpoint (fun _ db => Except.ok db) decNone 3 db0 authTok
        = delete_chat_endpoint (fun _ _ => Except.error (PyExc.httpException 404 "nf"))
            decNone 3 db0 authTok :=
  ⟨rfl,
   (claim_C5_no_distinct_unauthenticated Db (fun _ db => Except.ok db)
      (fun _ _ => Except.error (PyExc.httpException 404 "nf")) decNone 3 db0 authTok rfl).1,
   (claim_C5_no_distinct_unauthenticated Db (fun _ db => Except.ok db)
      (fun _ _ => Except.error (PyExc.httpException 404 "nf")) decNone 3 db0 authTok rfl).2⟩

/-- Counterexample for C8: an update request whose patch lacks a `text` field
does not proceed to the store — against a store that always succeeds with
`ok 1`, the outcome is instead the raised `NameError` of the misnamed status
constant. -/
theorem claim_C8_counterexample :
    update_message_request (fun _ _ _ => Except.ok (1 : Nat)) authTok 6
      [("note", PyVal.vStr "x")] db0 = Except.error (PyExc.nameError "status") := rfl

/-- Claim C8 as amended: `mark_messages_as_read` and `delete_message` perform
no authorization check and proceed unconditionally to the store;
`update_message` likewise reads no credential — its outcome is independent of
the caller identity — but proceeds to the store only when the patch text is
truthy, and fails before any store call (raising `NameError` at the misnamed
status constant) when the text is empty or missing. -/
theorem claim_C8_no_authorization :
    ∀ (α : Type) (markS delS : Int → Db → α) (updS : Int → PyVal → Db → Except PyExc α)
      (a1 a2 : Option (List Char)) (chat_id message_id : Int) (data : Payload) (db : Db),
    mark_chat_as_read_request markS a1 chat_id db = markS chat_id db
    ∧ delete_message_request delS a1 message_id db = delS message_id db
    ∧ update_message_request updS a1 message_id data db
        = update_message_request updS a2 message_id data db
    ∧ (pyFalsy (dictGet data "text") = false →
        update_message_request updS a1 message_id data db
          = updS message_id (dictGet data "text") db)
    ∧ (pyFalsy (dictGet data "text") = true →
        update_message_request updS a1 message_id data db
          = Except.error (PyExc.nameError "status")) := by
  intro α markS delS updS a1 a2 chat_id message_id data db
  refine ⟨rfl, rfl, rfl, ?_, ?_⟩
  · intro h
    simp [update_message_request, update_message_endpoint, h]
  · intro h
    simp [update_message_request, update_message_endpoint, h]

/-- Witness for the amended C8: a patch carrying the non-empty text `hi`
reaches the store unchanged, under an arbitrary concrete credential. -/
theorem claim_C8_witness :
    pyFalsy (dictGet [("text", PyVal.vStr "hi")] "text") = false
    ∧ update_message_request (fun _ _ _ => Except.ok (2 : Nat)) authTok 7
        [("text", PyVal.vStr "hi")] db0 = Except.ok 2 :=
  ⟨rfl,
   (claim_C8_no_authorization Nat (fun _ _ => 0) (fun _ _ => 0)
      (fun _ _ _ => Except.ok (2 : Nat)) authTok none 1 7
      [("text", PyVal.vStr "hi")] db0).2.2.2.1 rfl⟩
